import Mathlib

/-!
# Verification of the libuasync DML backend and the strdup chain example

Shallow embedding of the repository's two source files:

* `src/extras/dml/vdm_dml.c` — the DML (hardware data-mover) backend for the
  miniasync virtual data mover: flag translation, job lifecycle
  (new / submit / execute / check / delete) and the synchronous and
  asynchronous memcpy descriptors.
* `src/unnamed/part_000` — the strdup chain example: a two-link future chain
  (allocate, then copy) built both eagerly and lazily.

Machine integers are modelled as `Nat` with explicit 64-bit masking where the
C code depends on it.  Fallible paths (C `assert`) are modelled by `Option`
results where `none` is the fatal/abort path.  The external DML engine, libc
(`malloc`, `memcpy`, `strlen`) and the future/chain core (`future.h`,
`vdm.c`, which are not part of the repository snapshot) are modelled
explicitly; every such definition carries a doc comment saying so.
-/

/-- Future state enumeration of the future core (`FUTURE_STATE_*`). -/
inductive FutureState where
  | notStarted
  | running
  | complete
deriving DecidableEq, Repr

/-- All-ones mask of a 64-bit machine word, used to model C `~x` on
`uint64_t` as `mask64 ^^^ x`. -/
def mask64 : Nat := 2 ^ 64 - 1

/-- Modelled from the spec: the generic flag enumeration of the
`libminiasync-dml.h` header (not under `src/`): the durability bit is the
single defined generic flag ("a fixed, versioned set of named bits (e.g., a
durability bit)"). -/
def MINIASYNC_DML_F_MEM_DURABLE : Nat := 1

/-- Modelled from the spec: the set of all recognized generic flag bits;
with a single defined flag it equals the durability bit. -/
def MINIASYNC_DML_F_MEM_VALID_FLAGS : Nat := MINIASYNC_DML_F_MEM_DURABLE

/-- Model constant for the external DML engine's `DML_FLAG_DST1_DURABLE`
backend flag bit (opaque backend-specific bit). -/
def DML_FLAG_DST1_DURABLE : Nat := 2 ^ 12

/-- Model constant for the external DML engine's `DML_FLAG_COPY_ONLY`
backend flag bit (opaque backend-specific bit). -/
def DML_FLAG_COPY_ONLY : Nat := 2 ^ 13

/-- Model constant for the external DML engine's `DML_OP_MEM_MOVE`
operation code. -/
def DML_OP_MEM_MOVE : Nat := 0

/-- The body of the `switch (iflag)` statement inside
`vdm_dml_translate_flags`: the durability bit translates to the backend's
`DML_FLAG_DST1_DURABLE`; any other single bit hits `default: assert(0)`,
the fatal path, modelled as `none`. -/
def vdm_dml_switch_flag (iflag : Nat) : Option Nat :=
  if iflag = MINIASYNC_DML_F_MEM_DURABLE then some DML_FLAG_DST1_DURABLE
  else none

/-- The `for (iflag = 1; flags > 0; iflag <<= 1)` loop of
`vdm_dml_translate_flags`: skip unset bits, translate set bits through the
switch, clear each translated bit (`flags &= ~iflag`), accumulate into
`tflags`.  The loop variable `iflag` ranges over the 64 bit positions of a
`uint64_t`; `fuel` counts the remaining loop iterations. -/
def vdm_dml_translate_loop (fuel : Nat) (iflag flags tflags : Nat) : Option Nat :=
  match fuel with
  | 0 => none
  | fuel + 1 =>
    if flags = 0 then some tflags
    else if flags &&& iflag = 0 then
      vdm_dml_translate_loop fuel (iflag * 2) flags tflags
    else
      match vdm_dml_switch_flag iflag with
      | none => none
      | some t =>
        vdm_dml_translate_loop fuel (iflag * 2)
          (flags &&& (mask64 ^^^ iflag)) (tflags ||| t)

/-- `vdm_dml_translate_flags` — translate miniasync-dml flags into dml
flags.  The entry `assert((flags & ~MINIASYNC_DML_F_MEM_VALID_FLAGS) == 0)`
is the fatal path for unrecognized bits, modelled as `none`. -/
def vdm_dml_translate_flags (flags : Nat) : Option Nat :=
  if flags &&& (mask64 ^^^ MINIASYNC_DML_F_MEM_VALID_FLAGS) = 0 then
    vdm_dml_translate_loop 64 1 flags 0
  else none

/-- A `dml_job_t` record as filled in by `vdm_dml_memcpy_job_new`
(pointers are addresses, `Nat`). -/
structure DmlJob where
  operation : Nat
  source_first_ptr : Nat
  destination_first_ptr : Nat
  source_length : Nat
  destination_length : Nat
  flags : Nat
deriving DecidableEq, Repr

/-- The backend job store: live job objects (allocated by
`vdm_dml_memcpy_job_new`, not yet freed) keyed by address, a bump allocator
for fresh job addresses, and a log of every address passed to the
finalize-and-free path, in order.  The log makes "release exactly once"
checkable: each release appends one entry. -/
structure JobHeap where
  jobs : List (Nat × DmlJob)
  nextJobAddr : Nat
  releaseLog : List Nat
deriving DecidableEq, Repr

/-- `vdm_dml_memcpy_job_new` — create a new memcpy job struct: allocate a
job object (the engine's `dml_get_job_size`/`dml_init_job` are asserted OK,
modelled as always succeeding), set the operation parameters.  Returns the
job's address, the job value, and the updated store. -/
def vdm_dml_memcpy_job_new (w : JobHeap) (dest src n flags : Nat) :
    Nat × DmlJob × JobHeap :=
  let job : DmlJob :=
    { operation := DML_OP_MEM_MOVE
      source_first_ptr := src
      destination_first_ptr := dest
      source_length := n
      destination_length := n
      flags := DML_FLAG_COPY_ONLY ||| flags }
  (w.nextJobAddr, job,
    { jobs := (w.nextJobAddr, job) :: w.jobs
      nextJobAddr := w.nextJobAddr + 1
      releaseLog := w.releaseLog })

/-- `vdm_dml_memcpy_job_delete` — delete job struct:
`dml_finalize_job(*dml_job); free(*dml_job);`.  The job at address `a` is
removed from the live set and the release is logged.  Note the C function
receives `dml_job_t **` but never writes `*dml_job = NULL`: nothing is
cleared at the caller. -/
def vdm_dml_memcpy_job_delete (w : JobHeap) (a : Nat) : JobHeap :=
  { jobs := w.jobs.filter (fun p => p.1 ≠ a)
    nextJobAddr := w.nextJobAddr
    releaseLog := w.releaseLog ++ [a] }

/-- `vdm_dml_memcpy_job_execute` — execute memcpy job (blocking):
`dml_execute_job` is asserted OK; the function returns
`dml_job->destination_first_ptr`. -/
def vdm_dml_memcpy_job_execute (job : DmlJob) : Nat :=
  job.destination_first_ptr

/-- `vdm_dml_memcpy_job_submit` — submit memcpy job (nonblocking):
`dml_submit_job` is asserted OK; the function returns
`dml_job->destination_first_ptr`. -/
def vdm_dml_memcpy_job_submit (job : DmlJob) : Nat :=
  job.destination_first_ptr

/-- Status answers of the external engine's `dml_check_job` that the
backend code distinguishes: `DML_STATUS_OK`, `DML_STATUS_JOB_CORRUPTED`,
and any non-terminal status (e.g. `DML_STATUS_BEING_PROCESSED`). -/
inductive DmlStatus where
  | ok
  | beingProcessed
  | jobCorrupted
deriving DecidableEq, Repr

/-- `struct vdm_memcpy_data` — the Input region of a memcpy future context:
destination, source, length, generic flags, the opaque backend-private
handle slot `extra` (address of the stashed `dml_job_t`, `0` = NULL), and
the completion flag read by the synchronous check.  The `vdm_cb` callback
field is modelled by its effect (setting `complete`). -/
structure VdmMemcpyData where
  dest : Nat
  src : Nat
  n : Nat
  flags : Nat
  extra : Nat
  complete : Bool
deriving DecidableEq, Repr

/-- `struct vdm_memcpy_output` — the Output region of a memcpy future
context. -/
structure VdmMemcpyOutput where
  dest : Nat
deriving DecidableEq, Repr

/-- A memcpy future context: data, output, and the future-core state
field. -/
structure MemcpyContext where
  data : VdmMemcpyData
  output : VdmMemcpyOutput
  state : FutureState
deriving DecidableEq, Repr

/-- `vdm_dml_check` — check status of memcpy job executed synchronously:
atomically load `data->complete` and report COMPLETE iff it is set. -/
def vdm_dml_check (ctx : MemcpyContext) : FutureState :=
  if ctx.data.complete then FutureState.complete else FutureState.running

/-- `vdm_dml_check_delete_job` — check status of memcpy job executed
asynchronously.  Reads the job handle from `data->extra`, queries the
engine (`dml_check_job`; the engine's answer is the `status` argument),
`assert(status != DML_STATUS_JOB_CORRUPTED)` is the fatal path (`none`);
on `DML_STATUS_OK` the job is deleted and COMPLETE is returned, otherwise
RUNNING.  The context is returned unchanged: in particular `data->extra`
is never cleared and no guard prevents a repeated call from deleting
again. -/
def vdm_dml_check_delete_job (ctx : MemcpyContext) (w : JobHeap)
    (status : DmlStatus) :
    Option (FutureState × MemcpyContext × JobHeap) :=
  let a := ctx.data.extra
  if status = DmlStatus.jobCorrupted then none
  else
    let st := if status = DmlStatus.ok then FutureState.complete
              else FutureState.running
    if st = FutureState.complete then
      some (st, ctx, vdm_dml_memcpy_job_delete w a)
    else
      some (st, ctx, w)

/-- `vdm_dml_memcpy_sync` — execute dml synchronous memcpy operation:
translate flags (fatal on bad flags), create the job, execute it
(blocking), store the returned destination pointer in the Output, delete
the job, and run `data->vdm_cb(context)` — the data-mover completion
callback (not under `src/`), modelled from the spec ("the start function
performs the entire operation synchronously and leaves the future COMPLETE
before returning") as setting the completion flag read by
`vdm_dml_check`. -/
def vdm_dml_memcpy_sync (ctx : MemcpyContext) (w : JobHeap) :
    Option (MemcpyContext × JobHeap) :=
  match vdm_dml_translate_flags ctx.data.flags with
  | none => none
  | some tflags =>
    let r := vdm_dml_memcpy_job_new w ctx.data.dest ctx.data.src ctx.data.n tflags
    let a := r.1
    let job := r.2.1
    let w₁ := r.2.2
    let out : VdmMemcpyOutput := { dest := vdm_dml_memcpy_job_execute job }
    let w₂ := vdm_dml_memcpy_job_delete w₁ a
    some ({ ctx with
            data := { ctx.data with complete := true }
            output := out }, w₂)

/-- `vdm_dml_memcpy_async` — execute dml asynchronous memcpy operation:
translate flags (fatal on bad flags), create the job, stash its handle in
`data->extra`, submit it (nonblocking), and store the returned destination
pointer in the Output. -/
def vdm_dml_memcpy_async (ctx : MemcpyContext) (w : JobHeap) :
    Option (MemcpyContext × JobHeap) :=
  match vdm_dml_translate_flags ctx.data.flags with
  | none => none
  | some tflags =>
    let r := vdm_dml_memcpy_job_new w ctx.data.dest ctx.data.src ctx.data.n tflags
    let a := r.1
    let job := r.2.1
    let w₁ := r.2.2
    some ({ ctx with
            data := { ctx.data with extra := a }
            output := { dest := vdm_dml_memcpy_job_submit job } }, w₁)

/-- Modelled from the spec: the future core's poll of the asynchronous
(start-then-poll) DML descriptor.  `future.h`/`vdm.c` are not under
`src/`; §4.1 requires poll to be "safe to call after COMPLETE (idempotent —
returns COMPLETE again, performs no further side effects)", so a future
already COMPLETE is returned as such without invoking the descriptor; a
not-yet-started future runs the start function `vdm_dml_memcpy_async` and
becomes RUNNING; a RUNNING future runs the check function
`vdm_dml_check_delete_job` and takes the state it reports. -/
def dml_async_poll (ctx : MemcpyContext) (w : JobHeap) (status : DmlStatus) :
    Option (FutureState × MemcpyContext × JobHeap) :=
  match ctx.state with
  | FutureState.complete => some (FutureState.complete, ctx, w)
  | FutureState.notStarted =>
    match vdm_dml_memcpy_async ctx w with
    | none => none
    | some (ctx₁, w₁) =>
      some (FutureState.running, { ctx₁ with state := FutureState.running }, w₁)
  | FutureState.running =>
    match vdm_dml_check_delete_job ctx w status with
    | none => none
    | some (st, ctx₁, w₁) => some (st, { ctx₁ with state := st }, w₁)

/-- Modelled from the spec: the future core's poll of the synchronous
(run-to-completion) DML descriptor.  Same COMPLETE guard as
`dml_async_poll`; a not-yet-started future runs `vdm_dml_memcpy_sync` to
completion; the state reported afterwards is the one the check function
`vdm_dml_check` reads from the completion flag. -/
def dml_sync_poll (ctx : MemcpyContext) (w : JobHeap) :
    Option (FutureState × MemcpyContext × JobHeap) :=
  match ctx.state with
  | FutureState.complete => some (FutureState.complete, ctx, w)
  | FutureState.notStarted =>
    match vdm_dml_memcpy_sync ctx w with
    | none => none
    | some (ctx₁, w₁) =>
      some (vdm_dml_check ctx₁, { ctx₁ with state := vdm_dml_check ctx₁ }, w₁)
  | FutureState.running =>
    some (vdm_dml_check ctx, { ctx with state := vdm_dml_check ctx }, w)

/-!
## The strdup chain example (`src/unnamed/part_000`)

A two-link chain: link 0 allocates a buffer (`alloc_fut`, task
`alloc_impl`), link 1 copies the source string into it (`vdm_memcpy`
operation future driven by the synchronous data mover).  Byte memory is
modelled as a bump-allocated heap; the future/chain core (`FUTURE_CHAIN_*`
macros of `future.h`) and the synchronous data mover are not under `src/`
and are modelled from the spec, with doc comments saying so.
-/

/-- Byte memory: contents (address to byte) plus a bump allocator for
`malloc`. -/
structure Heap where
  mem : Nat → Nat
  nextAddr : Nat

/-- Model of libc `malloc`: return the next free address and bump the
allocator; contents are untouched. -/
def malloc (h : Heap) (n : Nat) : Nat × Heap :=
  (h.nextAddr, { mem := h.mem, nextAddr := h.nextAddr + n })

/-- Model of libc `memcpy`: copy `n` bytes from `src` to `dest`. -/
def memcpyBytes (h : Heap) (dest src n : Nat) : Heap :=
  { mem := fun a =>
      if dest ≤ a ∧ a < dest + n then h.mem (src + (a - dest)) else h.mem a
    nextAddr := h.nextAddr }

/-- The `n` bytes stored at address `p`. -/
def readBytes (h : Heap) (p n : Nat) : List Nat :=
  (List.range n).map (fun i => h.mem (p + i))

/-- Model of libc `strlen`: scan from `p` for the first NUL byte.  `fuel`
bounds the scan (the C call terminates because the argument is
NUL-terminated; theorems instantiate `fuel` large enough to reach the
terminator). -/
def cstrlen (h : Heap) (p : Nat) : Nat → Nat
  | 0 => 0
  | fuel + 1 =>
    if h.mem p = 0 then 0 else cstrlen h (p + 1) fuel + 1

/-- `struct alloc_fut` — data (`n`), output (`ptr`) and state of the
allocation future. -/
structure AllocFut where
  data_n : Nat
  output_ptr : Nat
  state : FutureState
deriving DecidableEq, Repr

/-- `alloc_impl` wrapped in a poll: if the future is already COMPLETE the
poll is a no-op; otherwise `output->ptr = malloc(data->n)` and the future
returns `FUTURE_STATE_COMPLETE`. -/
def pollAlloc (f : AllocFut) (h : Heap) : AllocFut × Heap :=
  if f.state = FutureState.complete then (f, h)
  else
    let r := malloc h f.data_n
    ({ f with output_ptr := r.1, state := FutureState.complete }, r.2)

/-- `async_alloc` — build the allocation future with `data.n = size`. -/
def async_alloc (size : Nat) : AllocFut :=
  { data_n := size, output_ptr := 0, state := FutureState.notStarted }

/-- The memcpy operation future used as the copy link
(`struct vdm_operation_future` for a `vdm_memcpy`): its data holds
`dest`, `src`, `n`, `flags`, its output the resulting pointer. -/
structure CopyFut where
  dest : Nat
  src : Nat
  n : Nat
  flags : Nat
  output_dest : Nat
  state : FutureState
deriving DecidableEq, Repr

/-- Modelled from the spec: `vdm_memcpy(vdm, dest, src, n, flags)` — the
constructor of a memcpy operation future (`vdm.c` is not under `src/`):
a fresh, not-yet-started future holding the given parameters. -/
def vdm_memcpy (dest src n flags : Nat) : CopyFut :=
  { dest := dest, src := src, n := n, flags := flags
    output_dest := 0, state := FutureState.notStarted }

/-- Events recorded by the chain driver, in execution order. -/
inductive Event where
  | allocComplete
  | mapAllocToCopy (dest : Nat)
  | lazyInit (dest : Nat)
  | copyStart (dest : Nat)
  | copyComplete
  | mapCopyToOutput
deriving DecidableEq, Repr

/-- Modelled from the spec: polling the copy link under the synchronous
data mover (`data_mover_sync`, not under `src/`) — the run-to-completion
descriptor variant of §4.2: the start performs the whole copy and the
future is COMPLETE before the poll returns; a poll of an already COMPLETE
future is a no-op.  The trace records the destination the copy starts
with. -/
def pollCopy (f : CopyFut) (h : Heap) : CopyFut × Heap × List Event :=
  if f.state = FutureState.complete then (f, h, [])
  else
    ({ f with output_dest := f.dest, state := FutureState.complete },
      memcpyBytes h f.dest f.src f.n,
      [Event.copyStart f.dest, Event.copyComplete])

/-- `struct strdup_output` — the chain's Output: resulting pointer and
length. -/
structure StrdupOutput where
  ptr : Nat
  length : Nat
deriving DecidableEq, Repr

/-- The strdup chain future: its data region holds the two chain entries
(`alloc`, and `copy` — `none` while a lazy copy link is not yet
constructed) plus the `src`/`length` fields, its output region the
`strdup_output`, plus the chain's own state and current link index. -/
structure StrdupFut where
  idx : Nat
  alloc : AllocFut
  copy : Option CopyFut
  src : Nat
  length : Nat
  out : StrdupOutput
  state : FutureState
deriving DecidableEq, Repr

/-- `strdup_map_alloc_to_copy` — the link-0 mapping function: write the
alloc future's output pointer into the copy future's
`operation.data.memcpy.dest`. -/
def strdup_map_alloc_to_copy (alloc_ptr : Nat) (copy : CopyFut) : CopyFut :=
  { copy with dest := alloc_ptr }

/-- `strdup_map_copy_to_output` — the final mapping function: populate the
chain output from the copy future's data (`ptr` from its `dest`, `length`
from its `n`). -/
def strdup_map_copy_to_output (copy : CopyFut) : StrdupOutput :=
  { ptr := copy.dest, length := copy.n }

/-- `strdup_init` — the lazy-link initializer: build a fresh
`vdm_memcpy` future whose destination is the alloc entry's output pointer
and whose source/length come from the chain data, and store it in the
entry's slot. -/
def strdup_init (f : StrdupFut) : CopyFut :=
  vdm_memcpy f.alloc.output_ptr f.src f.length 0

/-- `async_strdup` — build the strdup chain eagerly: both entries are
constructed up front; the copy entry is `vdm_memcpy(vdm, NULL, s, len, 0)`
with `len = strlen(s) + 1` (`strlenFuel` bounds the external `strlen`
scan).  The chain data's `src`/`length` fields are left zero-initialized
(the eager construction does not use them). -/
def async_strdup (strlenFuel : Nat) (h : Heap) (s : Nat) : StrdupFut :=
  let len := cstrlen h s strlenFuel + 1
  { idx := 0
    alloc := async_alloc len
    copy := some (vdm_memcpy 0 s len 0)
    src := 0
    length := 0
    out := { ptr := 0, length := 0 }
    state := FutureState.notStarted }

/-- `async_lazy_strdup` — build the strdup chain with a lazy copy link:
`data.src`/`data.length` are filled in, the alloc entry is constructed,
and the copy entry is left unconstructed (`none`), to be built by
`strdup_init` when the alloc link completes. -/
def async_lazy_strdup (strlenFuel : Nat) (h : Heap) (s : Nat) : StrdupFut :=
  let len := cstrlen h s strlenFuel + 1
  { idx := 0
    alloc := async_alloc len
    copy := none
    src := s
    length := len
    out := { ptr := 0, length := 0 }
    state := FutureState.notStarted }

/-- Modelled from the spec (§4.4): when the alloc link has just become
COMPLETE, invoke its mapping function with the next link's context, and if
the next link is lazy invoke its initializer now, constructing its
sub-future in place.  Returns the constructed copy future and the events
recorded. -/
def strdup_advance (f : StrdupFut) : CopyFut × List Event :=
  match f.copy with
  | some c =>
    (strdup_map_alloc_to_copy f.alloc.output_ptr c,
      [Event.mapAllocToCopy f.alloc.output_ptr])
  | none =>
    (strdup_init f,
      [Event.mapAllocToCopy f.alloc.output_ptr,
        Event.lazyInit f.alloc.output_ptr])

/-- Modelled from the spec (§4.4): poll the last (copy) link; when it
completes, invoke the final mapping function to populate the chain output
and the chain is COMPLETE; otherwise propagate RUNNING. -/
def strdup_poll_last (f : StrdupFut) (h : Heap) (tr : List Event) :
    FutureState × StrdupFut × Heap × List Event :=
  match f.copy with
  | none => (FutureState.running, f, h, tr)
  | some c =>
    let r := pollCopy c h
    let c₁ := r.1
    let h₁ := r.2.1
    let tr₁ := r.2.2
    if c₁.state = FutureState.complete then
      (FutureState.complete,
        { f with copy := some c₁
                 out := strdup_map_copy_to_output c₁
                 state := FutureState.complete },
        h₁, tr ++ tr₁ ++ [Event.mapCopyToOutput])
    else
      (FutureState.running,
        { f with copy := some c₁, state := FutureState.running }, h₁, tr ++ tr₁)

/-- Modelled from the spec (§4.4): one external poll of the two-link strdup
chain.  A COMPLETE chain returns COMPLETE idempotently.  At link index 0
the alloc sub-future is polled; if it is still RUNNING that is propagated;
when it completes, its mapping function runs (and the lazy copy link is
constructed) strictly before the copy link is started, the index advances,
and polling continues into the copy link within the same call.  At link
index 1 only the copy link is polled. -/
def strdup_chain_poll (f : StrdupFut) (h : Heap) :
    FutureState × StrdupFut × Heap × List Event :=
  if f.state = FutureState.complete then (FutureState.complete, f, h, [])
  else if f.idx = 0 then
    let r := pollAlloc f.alloc h
    let alloc₁ := r.1
    let h₁ := r.2
    if alloc₁.state = FutureState.complete then
      let f₁ := { f with alloc := alloc₁ }
      let adv := strdup_advance f₁
      strdup_poll_last
        { f₁ with copy := some adv.1, idx := 1 } h₁
        (Event.allocComplete :: adv.2)
    else
      (FutureState.running,
        { f with alloc := alloc₁, state := FutureState.running }, h₁, [])
  else
    strdup_poll_last f h []

/-!
## Sample values

Concrete contexts, job stores and heaps used to evaluate the definitions at
explicit inputs (counterexamples and witnesses).
-/

/-- A sample live job object stashed at address 7. -/
def exJob : DmlJob :=
  { operation := DML_OP_MEM_MOVE, source_first_ptr := 3, destination_first_ptr := 5,
    source_length := 4, destination_length := 4, flags := DML_FLAG_COPY_ONLY }

/-- A sample asynchronous memcpy future context in the RUNNING window, its
opaque slot holding the job handle 7. -/
def exCtxRunning : MemcpyContext :=
  { data := { dest := 5, src := 3, n := 4, flags := 0, extra := 7, complete := false },
    output := { dest := 5 }, state := FutureState.running }

/-- A sample job store with the job of `exCtxRunning` live and nothing
released yet. -/
def exW : JobHeap := { jobs := [(7, exJob)], nextJobAddr := 8, releaseLog := [] }

/-- The context of `exCtxRunning` after its poll observed completion (state
flipped to COMPLETE, data and output untouched). -/
def exCtxCompleted : MemcpyContext :=
  { data := { dest := 5, src := 3, n := 4, flags := 0, extra := 7, complete := false },
    output := { dest := 5 }, state := FutureState.complete }

/-- The job store of `exW` after the single release of job 7. -/
def exWReleased : JobHeap := { jobs := [], nextJobAddr := 8, releaseLog := [7] }

/-- A sample not-yet-started memcpy future context (dest 5, src 3, length
4, no flags); its output is zero-initialized. -/
def exCtxStart : MemcpyContext :=
  { data := { dest := 5, src := 3, n := 4, flags := 0, extra := 0, complete := false },
    output := { dest := 0 }, state := FutureState.notStarted }

/-- An empty sample job store whose next job address is 10. -/
def exW0 : JobHeap := { jobs := [], nextJobAddr := 10, releaseLog := [] }

/-- The job `vdm_dml_memcpy_async` builds for `exCtxStart`. -/
def exJobSubmitted : DmlJob :=
  { operation := DML_OP_MEM_MOVE, source_first_ptr := 3, destination_first_ptr := 5,
    source_length := 4, destination_length := 4, flags := DML_FLAG_COPY_ONLY }

/-- The context of `exCtxStart` right after `vdm_dml_memcpy_async` (handle
stashed, output written), before the core marks it RUNNING. -/
def exCtxSubmitted0 : MemcpyContext :=
  { data := { dest := 5, src := 3, n := 4, flags := 0, extra := 10, complete := false },
    output := { dest := 5 }, state := FutureState.notStarted }

/-- The context of `exCtxStart` after the first poll submitted the job: the
future is RUNNING and the output has already been written. -/
def exCtxSubmitted : MemcpyContext :=
  { data := { dest := 5, src := 3, n := 4, flags := 0, extra := 10, complete := false },
    output := { dest := 5 }, state := FutureState.running }

/-- The job store of `exW0` after the submit of `exJobSubmitted`. -/
def exWSubmitted : JobHeap :=
  { jobs := [(10, exJobSubmitted)], nextJobAddr := 11, releaseLog := [] }

/-- The context of `exCtxStart` after `vdm_dml_memcpy_sync` ran the whole
operation (completion flag set, output written). -/
def exCtxSyncDone : MemcpyContext :=
  { data := { dest := 5, src := 3, n := 4, flags := 0, extra := 0, complete := true },
    output := { dest := 5 }, state := FutureState.notStarted }

/-- The job store of `exW0` after the synchronous execute released its
job. -/
def exWSyncDone : JobHeap := { jobs := [], nextJobAddr := 11, releaseLog := [10] }

/-- A sample byte heap holding the NUL-terminated two-byte string
`[72, 105]` at address 100, with allocation starting at 200. -/
def exHeap : Heap :=
  { mem := fun a => if a = 100 then 72 else if a = 101 then 105 else 0
    nextAddr := 200 }

/-!
## Helper lemmas
-/

/-- Reading `n + 1` bytes is reading one byte and then `n` more. -/
theorem readBytes_succ (h : Heap) (p n : Nat) :
    readBytes h p (n + 1) = h.mem p :: readBytes h (p + 1) n := by
  unfold readBytes
  rw [List.range_succ_eq_map]
  simp only [List.map_cons, Nat.add_zero, List.map_map]
  congr 1
  apply List.map_congr_left
  intro i _
  simp only [Function.comp_apply]
  congr 1
  omega

/-- Inside the copied region, memory after `memcpyBytes` holds the source
bytes. -/
theorem memcpyBytes_mem_inside (h : Heap) (d s n i : Nat) (hi : i < n) :
    (memcpyBytes h d s n).mem (d + i) = h.mem (s + i) := by
  unfold memcpyBytes
  simp only []
  rw [if_pos ⟨Nat.le_add_right d i, by omega⟩]
  congr 1
  omega

/-- Reading the destination region after `memcpyBytes` yields exactly the
source region's bytes. -/
theorem readBytes_memcpyBytes (h : Heap) (d s n : Nat) :
    readBytes (memcpyBytes h d s n) d n = readBytes h s n := by
  unfold readBytes
  apply List.map_congr_left
  intro i hi
  rw [List.mem_range] at hi
  exact memcpyBytes_mem_inside h d s n i hi

/-- The `strlen` model is correct: if the bytes at `p` are `sb` followed by
a NUL and `sb` contains no NUL, the scan (with fuel reaching the
terminator) returns `sb.length`. -/
theorem cstrlen_eq_length (sb : List Nat) : ∀ (h : Heap) (p : Nat), 0 ∉ sb →
    readBytes h p (sb.length + 1) = sb ++ [0] →
    cstrlen h p (sb.length + 1) = sb.length := by
  induction sb with
  | nil =>
    intro h p _ hr
    rw [readBytes_succ] at hr
    simp only [readBytes, List.range_zero, List.map_nil, List.nil_append] at hr
    have h0 : h.mem p = 0 := (List.cons.inj hr).1
    simp [cstrlen, h0]
  | cons b rest ih =>
    intro h p hnz hr
    simp only [List.length_cons] at hr ⊢
    rw [readBytes_succ] at hr
    obtain ⟨hb, hrest⟩ := List.cons.inj hr
    have hb0 : h.mem p ≠ 0 := by
      rw [hb]
      intro h0
      exact hnz (h0 ▸ List.mem_cons_self b rest)
    rw [show cstrlen h p (rest.length + 1 + 1)
          = if h.mem p = 0 then 0 else cstrlen h (p + 1) (rest.length + 1) + 1 from rfl]
    rw [if_neg hb0, ih h (p + 1) (fun hm => hnz (List.mem_cons_of_mem _ hm)) hrest]

/-- Full evaluation of one external poll of the eagerly built strdup chain:
the whole pipeline completes within the call; the buffer is allocated at
the heap's next free address, the copy lands there, and the chain output is
that address with the scanned length. -/
theorem strdup_chain_poll_async_strdup (fuel : Nat) (h : Heap) (s : Nat) :
    strdup_chain_poll (async_strdup fuel h s) h =
      (FutureState.complete,
        { idx := 1
          alloc := { data_n := cstrlen h s fuel + 1, output_ptr := h.nextAddr,
                     state := FutureState.complete }
          copy := some { dest := h.nextAddr, src := s, n := cstrlen h s fuel + 1,
                         flags := 0, output_dest := h.nextAddr,
                         state := FutureState.complete }
          src := 0
          length := 0
          out := { ptr := h.nextAddr, length := cstrlen h s fuel + 1 }
          state := FutureState.complete },
        memcpyBytes { mem := h.mem, nextAddr := h.nextAddr + (cstrlen h s fuel + 1) }
          h.nextAddr s (cstrlen h s fuel + 1),
        [Event.allocComplete, Event.mapAllocToCopy h.nextAddr,
          Event.copyStart h.nextAddr, Event.copyComplete, Event.mapCopyToOutput]) := rfl

/-- Full evaluation of one external poll of the lazily built strdup chain:
same result as the eager chain except for the chain data's `src`/`length`
fields and the extra lazy-initializer event in the trace. -/
theorem strdup_chain_poll_async_lazy_strdup (fuel : Nat) (h : Heap) (s : Nat) :
    strdup_chain_poll (async_lazy_strdup fuel h s) h =
      (FutureState.complete,
        { idx := 1
          alloc := { data_n := cstrlen h s fuel + 1, output_ptr := h.nextAddr,
                     state := FutureState.complete }
          copy := some { dest := h.nextAddr, src := s, n := cstrlen h s fuel + 1,
                         flags := 0, output_dest := h.nextAddr,
                         state := FutureState.complete }
          src := s
          length := cstrlen h s fuel + 1
          out := { ptr := h.nextAddr, length := cstrlen h s fuel + 1 }
          state := FutureState.complete },
        memcpyBytes { mem := h.mem, nextAddr := h.nextAddr + (cstrlen h s fuel + 1) }
          h.nextAddr s (cstrlen h s fuel + 1),
        [Event.allocComplete, Event.mapAllocToCopy h.nextAddr, Event.lazyInit h.nextAddr,
          Event.copyStart h.nextAddr, Event.copyComplete, Event.mapCopyToOutput]) := rfl

/-- Polling an already COMPLETE asynchronous DML future is a no-op: COMPLETE
is returned, context and job store untouched. -/
theorem dml_async_poll_of_complete (ctx : MemcpyContext) (w : JobHeap)
    (status : DmlStatus) (h : ctx.state = FutureState.complete) :
    dml_async_poll ctx w status = some (FutureState.complete, ctx, w) := by
  unfold dml_async_poll
  rw [h]

/-- Polling an already COMPLETE synchronous DML future is a no-op: COMPLETE
is returned, context and job store untouched. -/
theorem dml_sync_poll_of_complete (ctx : MemcpyContext) (w : JobHeap)
    (h : ctx.state = FutureState.complete) :
    dml_sync_poll ctx w = some (FutureState.complete, ctx, w) := by
  unfold dml_sync_poll
  rw [h]

/-!
## Claim theorems
-/

/-- Claim C1 (code_bug evidence): the claim says the release happens
exactly once, that `vdm_dml_check_delete_job` clears the handle in the
context's opaque slot, and that the function is guarded against a second
call after COMPLETE.  Evaluating the embedded function at the failing
input shows otherwise: the check that observes `DML_STATUS_OK` does
release the job (release log `[7]`), but it returns the context with
`data.extra` still `7` (never cleared), and a second call on the same
context releases the same address again (release log `[7, 7]`) even
though the job is no longer live — an unguarded double free. -/
theorem vdm_dml_check_delete_job_unguarded_double_release :
    vdm_dml_check_delete_job exCtxRunning exW DmlStatus.ok
      = some (FutureState.complete, exCtxRunning,
          { jobs := [], nextJobAddr := 8, releaseLog := [7] })
    ∧ exCtxRunning.data.extra = 7
    ∧ vdm_dml_check_delete_job exCtxRunning
        { jobs := [], nextJobAddr := 8, releaseLog := [7] } DmlStatus.ok
      = some (FutureState.complete, exCtxRunning,
          { jobs := [], nextJobAddr := 8, releaseLog := [7, 7] }) :=
  ⟨by decide, rfl, by decide⟩

/-- Claim C2: for both DML memcpy descriptors, once a poll returns
COMPLETE, every subsequent poll of the same future returns COMPLETE with
the same context (hence the same Output) and the same job store (hence no
further side effects).  The poll wrapper is modelled from the spec's §4.1
COMPLETE guard, since the future core is not under `src/`. -/
theorem dml_poll_complete_idempotent :
    (∀ (ctx : MemcpyContext) (w : JobHeap) (status : DmlStatus)
        (ctx₁ : MemcpyContext) (w₁ : JobHeap),
      dml_async_poll ctx w status = some (FutureState.complete, ctx₁, w₁) →
      ∀ status₂, dml_async_poll ctx₁ w₁ status₂
        = some (FutureState.complete, ctx₁, w₁))
    ∧ (∀ (ctx : MemcpyContext) (w : JobHeap)
        (ctx₁ : MemcpyContext) (w₁ : JobHeap),
      dml_sync_poll ctx w = some (FutureState.complete, ctx₁, w₁) →
      dml_sync_poll ctx₁ w₁ = some (FutureState.complete, ctx₁, w₁)) := by
  constructor
  · intro ctx w status ctx₁ w₁ hp status₂
    have hs : ctx₁.state = FutureState.complete := by
      unfold dml_async_poll at hp
      cases hctx : ctx.state
      case notStarted =>
        rw [hctx] at hp
        cases hm : vdm_dml_memcpy_async ctx w
        case none => rw [hm] at hp; exact Option.noConfusion hp
        case some v =>
          obtain ⟨c, w2⟩ := v
          rw [hm] at hp
          simp only [Option.some.injEq, Prod.mk.injEq] at hp
          exact absurd hp.1 (by simp)
      case running =>
        rw [hctx] at hp
        cases hm : vdm_dml_check_delete_job ctx w status
        case none => rw [hm] at hp; exact Option.noConfusion hp
        case some v =>
          obtain ⟨st, c, w2⟩ := v
          rw [hm] at hp
          simp only [Option.some.injEq, Prod.mk.injEq] at hp
          obtain ⟨h1, h2, h3⟩ := hp
          rw [h1] at h2
          rw [← h2]
      case complete =>
        rw [hctx] at hp
        simp only [Option.some.injEq, Prod.mk.injEq] at hp
        rw [← hp.2.1, hctx]
    exact dml_async_poll_of_complete ctx₁ w₁ status₂ hs
  · intro ctx w ctx₁ w₁ hp
    have hs : ctx₁.state = FutureState.complete := by
      unfold dml_sync_poll at hp
      cases hctx : ctx.state
      case notStarted =>
        rw [hctx] at hp
        cases hm : vdm_dml_memcpy_sync ctx w
        case none => rw [hm] at hp; exact Option.noConfusion hp
        case some v =>
          obtain ⟨c, w2⟩ := v
          rw [hm] at hp
          simp only [Option.some.injEq, Prod.mk.injEq] at hp
          obtain ⟨h1, h2, h3⟩ := hp
          rw [h1] at h2
          rw [← h2]
      case running =>
        rw [hctx] at hp
        simp only [Option.some.injEq, Prod.mk.injEq] at hp
        obtain ⟨h1, h2, h3⟩ := hp
        rw [h1] at h2
        rw [← h2]
      case complete =>
        rw [hctx] at hp
        simp only [Option.some.injEq, Prod.mk.injEq] at hp
        rw [← hp.2.1, hctx]
    exact dml_sync_poll_of_complete ctx₁ w₁ hs

/-- Witness for C2: a RUNNING asynchronous future whose poll observes
`DML_STATUS_OK` returns COMPLETE; the theorem then gives that a further
poll (with any engine answer) is the identity. -/
theorem dml_poll_complete_idempotent_witness :
    dml_async_poll exCtxCompleted exWReleased DmlStatus.beingProcessed
      = some (FutureState.complete, exCtxCompleted, exWReleased) :=
  dml_poll_complete_idempotent.1 exCtxRunning exW DmlStatus.ok
    exCtxCompleted exWReleased (by decide) DmlStatus.beingProcessed

/-- Claim C3 (counterexample): contrary to the claim, after
`vdm_dml_memcpy_async` submits a job and the poll returns with the future
still RUNNING, `output->dest` HAS been written: at the concrete input it
changed from `0` to `5` while the state is RUNNING. -/
theorem vdm_dml_memcpy_async_premature_output_write :
    dml_async_poll exCtxStart exW0 DmlStatus.beingProcessed
      = some (FutureState.running, exCtxSubmitted,
          { jobs := [(10, exJobSubmitted)], nextJobAddr := 11, releaseLog := [] })
    ∧ exCtxSubmitted.state = FutureState.running
    ∧ exCtxStart.output.dest = 0
    ∧ exCtxSubmitted.output.dest = 5
    ∧ exCtxSubmitted.output.dest ≠ exCtxStart.output.dest := by
  refine ⟨by decide, rfl, rfl, rfl, by decide⟩

/-- Claim C3 as amended: `vdm_dml_memcpy_async` writes `output->dest` at
submission time, setting it to the job's destination pointer, which equals
the caller-supplied Input `dest` (the final Output value); the check
function never modifies the Output (or the Input data) afterwards, so the
Output is stable from submission onward rather than unmodified while
RUNNING. -/
theorem vdm_dml_memcpy_async_output_stable :
    (∀ (ctx : MemcpyContext) (w : JobHeap) (ctx₁ : MemcpyContext) (w₁ : JobHeap),
      vdm_dml_memcpy_async ctx w = some (ctx₁, w₁) →
      ctx₁.output.dest = ctx.data.dest)
    ∧ (∀ (ctx : MemcpyContext) (w : JobHeap) (status : DmlStatus)
        (st : FutureState) (ctx₁ : MemcpyContext) (w₁ : JobHeap),
      vdm_dml_check_delete_job ctx w status = some (st, ctx₁, w₁) →
      ctx₁.output = ctx.output ∧ ctx₁.data = ctx.data) := by
  constructor
  · intro ctx w ctx₁ w₁ hp
    unfold vdm_dml_memcpy_async at hp
    cases hm : vdm_dml_translate_flags ctx.data.flags
    case none => rw [hm] at hp; exact Option.noConfusion hp
    case some tflags =>
      rw [hm] at hp
      simp only [Option.some.injEq, Prod.mk.injEq] at hp
      rw [← hp.1]
      rfl
  · intro ctx w status st ctx₁ w₁ hp
    cases status
    case ok =>
      simp only [vdm_dml_check_delete_job, Option.some.injEq, Prod.mk.injEq,
        reduceCtorEq, if_true, if_false] at hp
      rw [← hp.2.1]
      exact ⟨rfl, rfl⟩
    case beingProcessed =>
      simp only [vdm_dml_check_delete_job, Option.some.injEq, Prod.mk.injEq,
        reduceCtorEq, if_true, if_false] at hp
      rw [← hp.2.1]
      exact ⟨rfl, rfl⟩
    case jobCorrupted =>
      exact Option.noConfusion hp

/-- Witness for the amended C3: at the concrete submit, the written output
destination equals the Input destination. -/
theorem vdm_dml_memcpy_async_output_stable_witness :
    vdm_dml_memcpy_async exCtxStart exW0 = some (exCtxSubmitted0, exWSubmitted)
    ∧ exCtxSubmitted0.output.dest = exCtxStart.data.dest :=
  ⟨by decide, vdm_dml_memcpy_async_output_stable.1 exCtxStart exW0
    exCtxSubmitted0 exWSubmitted (by decide)⟩

/-- Claim C4: for every NUL-terminated source string (bytes `sb` with no
embedded NUL, stored at address `s`), polling the eagerly built chain
`async_strdup` to completion and polling the lazily built chain
`async_lazy_strdup` to completion yield identical Output: a pointer whose
contents equal the source string (with its terminator) and a length equal
to `strlen(s) + 1`. -/
theorem async_strdup_eager_lazy_equivalent (sb : List Nat) (h : Heap) (s : Nat)
    (hnz : 0 ∉ sb)
    (hstr : readBytes h s (sb.length + 1) = sb ++ [0]) :
    (strdup_chain_poll (async_strdup (sb.length + 1) h s) h).1 = FutureState.complete
    ∧ (strdup_chain_poll (async_lazy_strdup (sb.length + 1) h s) h).1
        = FutureState.complete
    ∧ (strdup_chain_poll (async_strdup (sb.length + 1) h s) h).2.1.out
        = (strdup_chain_poll (async_lazy_strdup (sb.length + 1) h s) h).2.1.out
    ∧ readBytes (strdup_chain_poll (async_strdup (sb.length + 1) h s) h).2.2.1
        (strdup_chain_poll (async_strdup (sb.length + 1) h s) h).2.1.out.ptr
        (sb.length + 1) = sb ++ [0]
    ∧ (strdup_chain_poll (async_strdup (sb.length + 1) h s) h).2.1.out.length
        = sb.length + 1
    ∧ readBytes (strdup_chain_poll (async_lazy_strdup (sb.length + 1) h s) h).2.2.1
        (strdup_chain_poll (async_lazy_strdup (sb.length + 1) h s) h).2.1.out.ptr
        (sb.length + 1) = sb ++ [0] := by
  have hlen : cstrlen h s (sb.length + 1) = sb.length :=
    cstrlen_eq_length sb h s hnz hstr
  rw [strdup_chain_poll_async_strdup, strdup_chain_poll_async_lazy_strdup]
  simp only [hlen]
  refine ⟨trivial, trivial, trivial, ?_, trivial, ?_⟩
  · rw [readBytes_memcpyBytes]
    exact hstr
  · rw [readBytes_memcpyBytes]
    exact hstr

/-- Witness for C4: the string `[72, 105]` at address 100 of `exHeap`
satisfies the hypotheses, and eager and lazy chains produce equal
Output. -/
theorem async_strdup_eager_lazy_equivalent_witness :
    (0 : Nat) ∉ ([72, 105] : List Nat)
    ∧ readBytes exHeap 100 3 = [72, 105, 0]
    ∧ (strdup_chain_poll (async_strdup 3 exHeap 100) exHeap).2.1.out
        = (strdup_chain_poll (async_lazy_strdup 3 exHeap 100) exHeap).2.1.out :=
  ⟨by decide, by decide,
    (async_strdup_eager_lazy_equivalent [72, 105] exHeap 100 (by decide)
      (by decide)).2.2.1⟩

/-- Claim C5: `vdm_dml_translate_flags` is a pure function; for every
flags value composed only of recognized bits its result is the union of
the set bits' backend translations — the durability bit maps to exactly
`DML_FLAG_DST1_DURABLE` and the empty flag set maps to `0`. -/
theorem vdm_dml_translate_flags_union (flags : Nat)
    (h : flags &&& MINIASYNC_DML_F_MEM_VALID_FLAGS = flags) :
    vdm_dml_translate_flags flags =
      some (if flags &&& MINIASYNC_DML_F_MEM_DURABLE = 0 then 0
            else DML_FLAG_DST1_DURABLE) := by
  have h1 : flags &&& 1 = flags := h
  have h2 : flags % 2 = flags := by rw [← Nat.and_one_is_mod]; exact h1
  have h3 : flags < 2 := h2 ▸ Nat.mod_lt flags (by omega)
  interval_cases flags
  · rfl
  · rfl

/-- Witness for C5: the durability bit is a recognized flag set and it
translates to exactly the backend durability bit. -/
theorem vdm_dml_translate_flags_union_witness :
    MINIASYNC_DML_F_MEM_DURABLE &&& MINIASYNC_DML_F_MEM_VALID_FLAGS
      = MINIASYNC_DML_F_MEM_DURABLE
    ∧ vdm_dml_translate_flags MINIASYNC_DML_F_MEM_DURABLE
      = some (if MINIASYNC_DML_F_MEM_DURABLE &&& MINIASYNC_DML_F_MEM_DURABLE = 0
              then 0 else DML_FLAG_DST1_DURABLE) :=
  ⟨by decide, vdm_dml_translate_flags_union MINIASYNC_DML_F_MEM_DURABLE (by decide)⟩

/-- Claim C6: for every flags value containing at least one bit outside
the recognized set, `vdm_dml_translate_flags` takes the fatal assertion
path (modelled `none`) rather than returning a translation. -/
theorem vdm_dml_translate_flags_fatal (flags : Nat)
    (h : flags &&& (mask64 ^^^ MINIASYNC_DML_F_MEM_VALID_FLAGS) ≠ 0) :
    vdm_dml_translate_flags flags = none := by
  unfold vdm_dml_translate_flags
  rw [if_neg h]

/-- Witness for C6: flag bit 1 (`flags = 2`) is outside the recognized set
and hits the fatal path. -/
theorem vdm_dml_translate_flags_fatal_witness :
    (2 : Nat) &&& (mask64 ^^^ MINIASYNC_DML_F_MEM_VALID_FLAGS) ≠ 0 ∧
    vdm_dml_translate_flags 2 = none :=
  ⟨by decide, vdm_dml_translate_flags_fatal 2 (by decide)⟩

/-- Claim C7: if the engine reports `DML_STATUS_JOB_CORRUPTED` during a
check of an asynchronous DML memcpy future, `vdm_dml_check_delete_job`
takes the fatal path (modelled `none`) rather than returning any future
state. -/
theorem vdm_dml_check_delete_job_corrupted_fatal (ctx : MemcpyContext) (w : JobHeap) :
    vdm_dml_check_delete_job ctx w DmlStatus.jobCorrupted = none := rfl

/-- Witness for C7 at a concrete RUNNING context and job store. -/
theorem vdm_dml_check_delete_job_corrupted_fatal_witness :
    vdm_dml_check_delete_job exCtxRunning exW DmlStatus.jobCorrupted = none :=
  vdm_dml_check_delete_job_corrupted_fatal exCtxRunning exW

/-- Claim C8: in the two-link strdup chain (both eager and lazy), the full
event trace of a completing poll is computed: the mapping event
`mapAllocToCopy` occurs strictly after `allocComplete` and strictly before
`copyStart`, and the destination the copy link starts with (carried by
`copyStart`, and still held in the copy future's data afterwards) equals
exactly the pointer produced as the alloc link's Output
(`alloc.output_ptr = h.nextAddr`). -/
theorem strdup_chain_map_ordering (fuel : Nat) (h : Heap) (s : Nat) :
    (strdup_chain_poll (async_strdup fuel h s) h).2.2.2
      = [Event.allocComplete, Event.mapAllocToCopy h.nextAddr,
          Event.copyStart h.nextAddr, Event.copyComplete, Event.mapCopyToOutput]
    ∧ (strdup_chain_poll (async_strdup fuel h s) h).2.1.alloc.output_ptr = h.nextAddr
    ∧ ((strdup_chain_poll (async_strdup fuel h s) h).2.1.copy).map CopyFut.dest
        = some h.nextAddr
    ∧ (strdup_chain_poll (async_lazy_strdup fuel h s) h).2.2.2
      = [Event.allocComplete, Event.mapAllocToCopy h.nextAddr, Event.lazyInit h.nextAddr,
          Event.copyStart h.nextAddr, Event.copyComplete, Event.mapCopyToOutput]
    ∧ (strdup_chain_poll (async_lazy_strdup fuel h s) h).2.1.alloc.output_ptr
        = h.nextAddr
    ∧ ((strdup_chain_poll (async_lazy_strdup fuel h s) h).2.1.copy).map CopyFut.dest
        = some h.nextAddr :=
  ⟨rfl, rfl, rfl, rfl, rfl, rfl⟩

/-- Witness for C8 at the concrete heap `exHeap` (allocation at 200). -/
theorem strdup_chain_map_ordering_witness :
    (strdup_chain_poll (async_strdup 3 exHeap 100) exHeap).2.2.2
      = [Event.allocComplete, Event.mapAllocToCopy 200, Event.copyStart 200,
          Event.copyComplete, Event.mapCopyToOutput] :=
  (strdup_chain_map_ordering 3 exHeap 100).1

/-- Claim C9: in the lazily built strdup chain the copy link's sub-future
is not constructed at build time (`copy = none` after
`async_lazy_strdup`), and in the poll's event trace the initializer event
`lazyInit` occurs strictly after `allocComplete` — no event at all
precedes `allocComplete` — so `strdup_init` runs only once the alloc
sub-future has reached COMPLETE. -/
theorem async_lazy_strdup_defers_construction (fuel : Nat) (h : Heap) (s : Nat) :
    (async_lazy_strdup fuel h s).copy = none
    ∧ (strdup_chain_poll (async_lazy_strdup fuel h s) h).2.2.2
      = [Event.allocComplete, Event.mapAllocToCopy h.nextAddr, Event.lazyInit h.nextAddr,
          Event.copyStart h.nextAddr, Event.copyComplete, Event.mapCopyToOutput]
    ∧ ((strdup_chain_poll (async_lazy_strdup fuel h s) h).2.2.2).takeWhile
        (fun e => e ≠ Event.allocComplete) = [] :=
  ⟨rfl, rfl, rfl⟩

/-- Witness for C9 at the concrete heap `exHeap`. -/
theorem async_lazy_strdup_defers_construction_witness :
    (async_lazy_strdup 3 exHeap 100).copy = none
    ∧ (strdup_chain_poll (async_lazy_strdup 3 exHeap 100) exHeap).2.2.2
      = [Event.allocComplete, Event.mapAllocToCopy 200, Event.lazyInit 200,
          Event.copyStart 200, Event.copyComplete, Event.mapCopyToOutput] :=
  ⟨(async_lazy_strdup_defers_construction 3 exHeap 100).1,
    (async_lazy_strdup_defers_construction 3 exHeap 100).2.1⟩

/-- Claim C10: for both the synchronous and the asynchronous DML memcpy
operation, the Output destination pointer written to the future context
equals exactly the destination supplied in the Input data: the job's
`destination_first_ptr` is set to the caller's dest by
`vdm_dml_memcpy_job_new` and returned unchanged by both
execute and submit. -/
theorem dml_memcpy_output_dest_eq_input_dest :
    (∀ (ctx : MemcpyContext) (w : JobHeap) (ctx₁ : MemcpyContext) (w₁ : JobHeap),
      vdm_dml_memcpy_sync ctx w = some (ctx₁, w₁) →
      ctx₁.output.dest = ctx.data.dest)
    ∧ (∀ (ctx : MemcpyContext) (w : JobHeap) (ctx₁ : MemcpyContext) (w₁ : JobHeap),
      vdm_dml_memcpy_async ctx w = some (ctx₁, w₁) →
      ctx₁.output.dest = ctx.data.dest)
    ∧ (∀ (w : JobHeap) (dest src n flags : Nat),
      (vdm_dml_memcpy_job_new w dest src n flags).2.1.destination_first_ptr = dest
      ∧ vdm_dml_memcpy_job_submit (vdm_dml_memcpy_job_new w dest src n flags).2.1 = dest
      ∧ vdm_dml_memcpy_job_execute (vdm_dml_memcpy_job_new w dest src n flags).2.1
          = dest) := by
  refine ⟨?_, ?_, ?_⟩
  · intro ctx w ctx₁ w₁ hp
    unfold vdm_dml_memcpy_sync at hp
    cases hm : vdm_dml_translate_flags ctx.data.flags
    case none => rw [hm] at hp; exact Option.noConfusion hp
    case some tflags =>
      rw [hm] at hp
      simp only [Option.some.injEq, Prod.mk.injEq] at hp
      rw [← hp.1]
      rfl
  · intro ctx w ctx₁ w₁ hp
    unfold vdm_dml_memcpy_async at hp
    cases hm : vdm_dml_translate_flags ctx.data.flags
    case none => rw [hm] at hp; exact Option.noConfusion hp
    case some tflags =>
      rw [hm] at hp
      simp only [Option.some.injEq, Prod.mk.injEq] at hp
      rw [← hp.1]
      rfl
  · intro w dest src n flags
    exact ⟨rfl, rfl, rfl⟩

/-- Witness for C10: at the concrete synchronous run, the Output
destination equals the Input destination. -/
theorem dml_memcpy_output_dest_eq_input_dest_witness :
    vdm_dml_memcpy_sync exCtxStart exW0 = some (exCtxSyncDone, exWSyncDone)
    ∧ exCtxSyncDone.output.dest = exCtxStart.data.dest :=
  ⟨by decide, dml_memcpy_output_dest_eq_input_dest.1 exCtxStart exW0
    exCtxSyncDone exWSyncDone (by decide)⟩
